import Mathlib

/-!
Verification of the `SimpleBraytonCycle` gas-turbine cycle model and the
compressible-flow relations of the Zero-Carbon-Aviation repository.

The Python class `SimpleBraytonCycle` (file `SimpleBraytonCycle.py`) is embedded
shallowly: every float field becomes a real number, the constructor's field
assembly becomes `mkCycle`, each `@property` becomes a Lean function of the
cycle record, and the two numerical library routines (`scipy.optimize.brentq`
and `scipy.optimize.minimize`) are abstracted as outcome-valued parameters so
that the surrounding control flow (bracket, success codes, exception handling)
is captured exactly.  The possibly-NaN pressure-ratio field produced by
`calcPR` is modelled by the sentinel type `PRField`.
-/

noncomputable section

/-- The `self.ambient` dictionary of `SimpleBraytonCycle.__init__`. -/
structure Ambient where
  T_K : ℝ
  p_Pa : ℝ
  γ : ℝ
  R_J_kgK : ℝ
  cp_J_kgK : ℝ

/-- The float `self.PR` field as left by `__init__`: either NaN (the sentinel
returned by `calcPR` on non-convergence) or an ordinary real value. -/
inductive PRField where
  | nan : PRField
  | val : ℝ → PRField

/-- The instance fields of `SimpleBraytonCycle`, parametrised by the type of
the `PR` field (`ℝ` for the pure model layer, `PRField` for constructed
objects whose `PR` may be the NaN sentinel).  The Python dict
`self.ηpoly = {"compressor": …, "turbine": …}` is flattened into two fields. -/
structure SimpleBraytonCycleP (α : Type) where
  PR : α
  T_combustor_exit : ℝ
  ηpoly_compressor : ℝ
  ηpoly_turbine : ℝ
  burnerPR : ℝ
  coolingPR : ℝ
  Turbine_Metal_Temperature : ℝ
  StantonNumber : ℝ
  ambient : Ambient

abbrev SimpleBraytonCycle := SimpleBraytonCycleP ℝ

abbrev SimpleBraytonCycleObj := SimpleBraytonCycleP PRField

/-- The field assembly performed by `SimpleBraytonCycle.__init__` once the
`PR` value is known: Celsius arguments are converted to Kelvin, kPa to Pa,
a `None` metal temperature defaults to the combustor-exit temperature, and the
ambient dictionary is built.  Note the source stores the literal `287` for
`'R_J_kgK'` while `'cp_J_kgK'` is computed from the `R_J_kgK` argument. -/
def mkCycle {α : Type} (PR : α) (Turbine_Inlet_Temperature_C : ℝ)
    (ηpoly_compressor ηpoly_turbine : ℝ)
    (T_ambient_C p_ambient_kPa R_J_kgK γ : ℝ)
    (Turbine_Metal_Temperature_C : Option ℝ)
    (StantonNumber burnerPR coolingPR : ℝ) : SimpleBraytonCycleP α :=
  { PR := PR
    T_combustor_exit := Turbine_Inlet_Temperature_C + 273.15
    ηpoly_compressor := ηpoly_compressor
    ηpoly_turbine := ηpoly_turbine
    burnerPR := burnerPR
    coolingPR := coolingPR
    Turbine_Metal_Temperature :=
      match Turbine_Metal_Temperature_C with
      | none => Turbine_Inlet_Temperature_C + 273.15
      | some m => m + 273.15
    StantonNumber := StantonNumber
    ambient :=
      { T_K := T_ambient_C + 273.15
        p_Pa := p_ambient_kPa * 1000
        γ := γ
        R_J_kgK := 287
        cp_J_kgK := R_J_kgK * γ / (γ - 1) } }

/-- Property `T_compressor_exit`:
`self.ambient["T_K"]*self.PR**((γ-1)/γ/ηpoly["compressor"])`. -/
def T_compressor_exit (c : SimpleBraytonCycle) : ℝ :=
  c.ambient.T_K *
    c.PR ^ ((c.ambient.γ - 1) / c.ambient.γ / c.ηpoly_compressor)

/-- Property `βcooling`: turbine cooling / inlet mass flow ratio. -/
def βcooling (c : SimpleBraytonCycle) : ℝ :=
  c.StantonNumber * (c.T_combustor_exit - c.Turbine_Metal_Temperature) /
    (c.Turbine_Metal_Temperature - T_compressor_exit c)

/-- Property `turbinePR`: turbine inlet to exhaust pressure ratio. -/
def turbinePR (c : SimpleBraytonCycle) : ℝ :=
  c.PR * (c.burnerPR * (1 - βcooling c) + c.coolingPR * βcooling c)

/-- Property `T_turbine_inlet`: temperature after mixing of combustor exit and
cooling flows. -/
def T_turbine_inlet (c : SimpleBraytonCycle) : ℝ :=
  T_compressor_exit c * βcooling c + c.T_combustor_exit * (1 - βcooling c)

/-- Property `T_turbine_exit`. -/
def T_turbine_exit (c : SimpleBraytonCycle) : ℝ :=
  T_turbine_inlet c *
    turbinePR c ^ (-(c.ambient.γ - 1) * c.ηpoly_turbine / c.ambient.γ)

/-- Property `mass_specific_heat_addition`. -/
def mass_specific_heat_addition (c : SimpleBraytonCycle) : ℝ :=
  (c.T_combustor_exit - T_compressor_exit c) * c.ambient.cp_J_kgK *
    (1 - βcooling c)

/-- Property `mass_specific_work`. -/
def mass_specific_work (c : SimpleBraytonCycle) : ℝ :=
  (T_turbine_inlet c - T_turbine_exit c -
    (T_compressor_exit c - c.ambient.T_K)) * c.ambient.cp_J_kgK

/-- Property `efficiency`. -/
def efficiency (c : SimpleBraytonCycle) : ℝ :=
  mass_specific_work c / mass_specific_heat_addition c

/-- Method `enthalpy`: mass-specific enthalpy at temperature `T` (K). -/
def enthalpy (c : SimpleBraytonCycle) (T : ℝ) : ℝ :=
  c.ambient.cp_J_kgK * (T - c.ambient.T_K)

/-- Method `entropy`: mass-specific entropy at temperature `T` (K) and
pressure `p` (Pa). -/
def entropy (c : SimpleBraytonCycle) (T p : ℝ) : ℝ :=
  c.ambient.cp_J_kgK * Real.log (T / c.ambient.T_K) -
    c.ambient.R_J_kgK * Real.log (p / c.ambient.p_Pa)

/-- Property `cycleTemperatures`: the five-station temperature array. -/
def cycleTemperatures (c : SimpleBraytonCycle) : List ℝ :=
  [c.ambient.T_K, T_compressor_exit c, c.T_combustor_exit,
    T_turbine_inlet c, T_turbine_exit c]

/-- Property `cyclePressures`: the scalar `p_Pa` times the five-station
pressure-ratio array, exactly as the numpy expression
`p_Pa * np.array([1, PR, PR*burnerPR, turbinePR, 1])`. -/
def cyclePressures (c : SimpleBraytonCycle) : List ℝ :=
  ([1, c.PR, c.PR * c.burnerPR, turbinePR c, 1] : List ℝ).map
    (fun x => c.ambient.p_Pa * x)

/-- The residual closure `δwork` inside `calcPR`: it re-instantiates a
`SimpleBraytonCycle` at the trial pressure ratio with this object's fields
converted back to constructor arguments, and subtracts the target work. -/
def δwork {α : Type} (c : SimpleBraytonCycleP α) (target_work_kJ_kg : ℝ)
    (pr : ℝ) : ℝ :=
  mass_specific_work
      (mkCycle pr (c.T_combustor_exit - 273.15)
        c.ηpoly_compressor c.ηpoly_turbine
        (c.ambient.T_K - 273.15) (c.ambient.p_Pa / 1000)
        c.ambient.R_J_kgK c.ambient.γ
        (some (c.Turbine_Metal_Temperature - 273.15))
        c.StantonNumber c.burnerPR c.coolingPR) / 1000 -
    target_work_kJ_kg

/-- Abstract outcome of a `scipy.optimize.brentq` call on a bracket:
either the `ValueError` raised when the residual has no sign change over the
bracket, or a root estimate together with the `converged` flag of the
returned results object. -/
inductive BrentqOutcome where
  | noSignChange : BrentqOutcome
  | found : ℝ → Bool → BrentqOutcome

/-- Method `calcPR`: runs the root finder on `δwork` over the hard-coded
bracket `[1, 40]`; a `ValueError` (no sign change) or a non-converged result
yields the NaN sentinel. -/
def calcPR {α : Type} (brentq : (ℝ → ℝ) → ℝ → ℝ → BrentqOutcome)
    (c : SimpleBraytonCycleP α) (target_work_kJ_kg : ℝ) : PRField :=
  match brentq (δwork c target_work_kJ_kg) 1 40 with
  | .noSignChange => .nan
  | .found pr converged => if converged then .val pr else .nan

/-- `SimpleBraytonCycle.__init__`: assembles the fields, then dispatches on
the optional `PR` / `target_mass_specific_work_kJ_kg` arguments; with both
absent it raises `ValueError`, with `PR` absent it assigns
`self.PR = self.calcPR(target)` (possibly NaN). -/
def SimpleBraytonCycle_init (brentq : (ℝ → ℝ) → ℝ → ℝ → BrentqOutcome)
    (PR : Option ℝ) (Turbine_Inlet_Temperature_C : ℝ)
    (ηpoly_compressor ηpoly_turbine : ℝ)
    (T_ambient_C p_ambient_kPa R_J_kgK γ : ℝ)
    (target_mass_specific_work_kJ_kg : Option ℝ)
    (Turbine_Metal_Temperature_C : Option ℝ)
    (StantonNumber burnerPR coolingPR : ℝ) :
    Except String SimpleBraytonCycleObj :=
  match PR with
  | some pr =>
      .ok (mkCycle (PRField.val pr) Turbine_Inlet_Temperature_C
        ηpoly_compressor ηpoly_turbine T_ambient_C p_ambient_kPa R_J_kgK γ
        Turbine_Metal_Temperature_C StantonNumber burnerPR coolingPR)
  | none =>
      match target_mass_specific_work_kJ_kg with
      | none =>
          .error "Either PR or target_mass_specific_work must be specified."
      | some w =>
          let base : SimpleBraytonCycleObj :=
            mkCycle PRField.nan Turbine_Inlet_Temperature_C
              ηpoly_compressor ηpoly_turbine T_ambient_C p_ambient_kPa
              R_J_kgK γ Turbine_Metal_Temperature_C StantonNumber burnerPR
              coolingPR
          .ok { base with PR := calcPR brentq base w }

/-- The trial design point the closure `inefficiency` inside `optimize`
re-instantiates at a trial coordinate vector `x = (PR, T3)`: the source
passes `Turbine_Inlet_Temperature_C = x[1]` (no Kelvin-to-Celsius
conversion, unlike the analogous closure in `calcPR`). -/
def optimizeTrial (c : SimpleBraytonCycle) (x : ℝ × ℝ) : SimpleBraytonCycle :=
  mkCycle x.1 x.2 c.ηpoly_compressor c.ηpoly_turbine
    (c.ambient.T_K - 273.15) (c.ambient.p_Pa / 1000)
    c.ambient.R_J_kgK c.ambient.γ
    (some (c.Turbine_Metal_Temperature - 273.15))
    c.StantonNumber c.burnerPR c.coolingPR

/-- The closure `inefficiency` inside `optimize`: `1 - efficiency` of the
re-instantiated trial design point. -/
def inefficiency (c : SimpleBraytonCycle) (x : ℝ × ℝ) : ℝ :=
  1 - efficiency (optimizeTrial c x)

/-- Abstract outcome of a `scipy.optimize.minimize` call: either a raised
`ValueError` (the only exception `optimize` catches), or a results object
carrying an integer status code and the solution vector. -/
inductive MinimizeOutcome where
  | valueError : MinimizeOutcome
  | finished : ℤ → ℝ × ℝ → MinimizeOutcome

/-- Method `optimize`: runs the minimizer on `inefficiency` from the initial
guess `[self.PR, self.T_combustor_exit]` with bounds `[1,1273]`-`[60,2273]`;
on status 1 or 2 it overwrites `self.PR` and `self.T_combustor_exit` with the
solution and returns the object, otherwise (`ValueError` or any other status)
it returns `None`.  The `Option` return type reflects that no exception
escapes this method. -/
def optimize
    (minimize : (ℝ × ℝ → ℝ) → ℝ × ℝ → ℝ × ℝ → ℝ × ℝ → MinimizeOutcome)
    (c : SimpleBraytonCycle) : Option SimpleBraytonCycle :=
  match minimize (inefficiency c) (c.PR, c.T_combustor_exit)
      (1, 1273) (60, 2273) with
  | .valueError => none
  | .finished status x =>
      if status = 1 ∨ status = 2 then
        some { c with PR := x.1, T_combustor_exit := x.2 }
      else none

/-- `compressible_flow.py`: `γ1 = lambda γ: γ / (γ-1)`. -/
def γ1 (γ : ℝ) : ℝ := γ / (γ - 1)

/-- `compressible_flow.py`: ratio of total to static temperature,
`θ = lambda Mach, γ=1.4: 1 + (γ-1)/2*Mach**2`. -/
def θ (Mach : ℝ) (γ : ℝ := 1.4) : ℝ := 1 + (γ - 1) / 2 * Mach ^ (2 : ℕ)

/-- `compressible_flow.py`: ratio of total to static pressure,
`δ = lambda Mach, γ=1.4: θ(Mach, γ)**(γ1(γ))`. -/
def δ (Mach : ℝ) (γ : ℝ := 1.4) : ℝ := θ Mach γ ^ γ1 γ

/-- The concrete design point of the spec's reference scenario: PR = 20,
turbine inlet 1500 °C, unit polytropic efficiencies, ambient 25 °C and
100 kPa, `R_J_kgK = 287.058`, `γ = 1.4`, metal temperature 1200 °C,
Stanton number 0.07, `burnerPR = 0.98`, `coolingPR = 0.95`. -/
def c₀ : SimpleBraytonCycle :=
  mkCycle 20 1500 1 1 25 100 287.058 1.4 (some 1200) 0.07 0.98 0.95

/-- C1: for every cycle with concrete PR and T3 the derived quantities satisfy
the closed-form chain of §4.1: `T2 = T_amb·PR^((γ−1)/(γ·η_compressor))`,
`β = Stanton·(T3 − T_metal)/(T_metal − T2)`,
`PR_turbine = PR·(burnerPR·(1−β) + coolingPR·β)`,
`T_mix = T2·β + T3·(1−β)`, `T_exit = T_mix·PR_turbine^(−(γ−1)·η_turbine/γ)`,
`q = (T3 − T2)·cp·(1−β)`, `w = (T_mix − T_exit − (T2 − T_amb))·cp`,
`η = w/q`.  All functions are total on ℝ, so no clamping or rejection of
out-of-range β occurs anywhere in the chain. -/
theorem cycle_closed_form_chain (c : SimpleBraytonCycle) :
    T_compressor_exit c =
      c.ambient.T_K *
        c.PR ^ ((c.ambient.γ - 1) / (c.ambient.γ * c.ηpoly_compressor)) ∧
    βcooling c =
      c.StantonNumber * (c.T_combustor_exit - c.Turbine_Metal_Temperature) /
        (c.Turbine_Metal_Temperature - T_compressor_exit c) ∧
    turbinePR c =
      c.PR * (c.burnerPR * (1 - βcooling c) + c.coolingPR * βcooling c) ∧
    T_turbine_inlet c =
      T_compressor_exit c * βcooling c +
        c.T_combustor_exit * (1 - βcooling c) ∧
    T_turbine_exit c =
      T_turbine_inlet c *
        turbinePR c ^ (-(c.ambient.γ - 1) * c.ηpoly_turbine / c.ambient.γ) ∧
    mass_specific_heat_addition c =
      (c.T_combustor_exit - T_compressor_exit c) * c.ambient.cp_J_kgK *
        (1 - βcooling c) ∧
    mass_specific_work c =
      (T_turbine_inlet c - T_turbine_exit c -
        (T_compressor_exit c - c.ambient.T_K)) * c.ambient.cp_J_kgK ∧
    efficiency c = mass_specific_work c / mass_specific_heat_addition c := by
  refine ⟨?_, rfl, rfl, rfl, rfl, rfl, rfl, rfl⟩
  show c.ambient.T_K *
      c.PR ^ ((c.ambient.γ - 1) / c.ambient.γ / c.ηpoly_compressor) = _
  rw [div_div]

/-- C2: the trial design point that `optimize`'s internal objective rebuilds
at the initial guess `(self.PR, self.T_combustor_exit)` does NOT reproduce the
outer object: the source passes the stored Kelvin temperature
`self.T_combustor_exit` as the constructor's Celsius argument
`Turbine_Inlet_Temperature_C`, so the trial combustor-exit temperature is the
outer one plus 273.15 (the `calcPR` closure, by contrast, subtracts 273.15
first).  The PR coordinate, metal temperature and ambient state do round-trip
unchanged, so the divergence is exactly this missing unit conversion. -/
theorem optimize_objective_units_mismatch (c : SimpleBraytonCycle) :
    (optimizeTrial c (c.PR, c.T_combustor_exit)).PR = c.PR ∧
    (optimizeTrial c (c.PR, c.T_combustor_exit)).T_combustor_exit =
      c.T_combustor_exit + 273.15 ∧
    (optimizeTrial c (c.PR, c.T_combustor_exit)).T_combustor_exit ≠
      c.T_combustor_exit ∧
    (optimizeTrial c (c.PR, c.T_combustor_exit)).Turbine_Metal_Temperature =
      c.Turbine_Metal_Temperature ∧
    (optimizeTrial c (c.PR, c.T_combustor_exit)).ambient.T_K =
      c.ambient.T_K ∧
    (optimizeTrial c (c.PR, c.T_combustor_exit)).ambient.p_Pa =
      c.ambient.p_Pa := by
  refine ⟨rfl, rfl, ?_, by show c.Turbine_Metal_Temperature - 273.15 + 273.15 = _; ring,
    by show c.ambient.T_K - 273.15 + 273.15 = _; ring,
    by show c.ambient.p_Pa / 1000 * 1000 = _; field_simp⟩
  show c.T_combustor_exit + 273.15 ≠ c.T_combustor_exit
  intro h
  have h2 : (273.15 : ℝ) = 0 := by linarith
  norm_num at h2

/-- C4: `optimize` returns the object with `PR` and `T_combustor_exit`
overwritten by the solution precisely when the solver reports status 1 or 2;
a `ValueError` raised by the solver or any other status code yields `none`
with every field unchanged.  The `Option` return type of the embedded
`optimize` records that no exception escapes the method. -/
theorem optimize_status_contract
    (minimize : (ℝ × ℝ → ℝ) → ℝ × ℝ → ℝ × ℝ → ℝ × ℝ → MinimizeOutcome)
    (c : SimpleBraytonCycle) :
    (minimize (inefficiency c) (c.PR, c.T_combustor_exit) (1, 1273) (60, 2273) =
        MinimizeOutcome.valueError → optimize minimize c = none) ∧
    ∀ (s : ℤ) (x : ℝ × ℝ),
      minimize (inefficiency c) (c.PR, c.T_combustor_exit) (1, 1273) (60, 2273) =
        MinimizeOutcome.finished s x →
      ((s = 1 ∨ s = 2) →
        optimize minimize c =
          some { c with PR := x.1, T_combustor_exit := x.2 }) ∧
      (¬(s = 1 ∨ s = 2) → optimize minimize c = none) := by
  constructor
  · intro h
    unfold optimize
    rw [h]
  · intro s x h
    constructor
    · intro hs
      unfold optimize
      rw [h]
      simp only [if_pos hs]
    · intro hs
      unfold optimize
      rw [h]
      simp only [if_neg hs]

/-- C5: `calcPR` consults the root finder only on the hard-coded bracket
`[1, 40]`; when the bracket has no sign change (`ValueError`) or the method
does not converge, it returns the NaN sentinel instead of raising, and a
construction with `PR` omitted and a target work supplied still completes,
producing an object whose `PR` is the sentinel. -/
theorem calcPR_nonconvergence_nan
    (brentq : (ℝ → ℝ) → ℝ → ℝ → BrentqOutcome)
    (TIT ηc ηt Tamb pamb R γ w St bPR cPR : ℝ) (Tmetal : Option ℝ)
    (h : brentq (δwork (mkCycle PRField.nan TIT ηc ηt Tamb pamb R γ Tmetal St bPR cPR) w)
          1 40 = BrentqOutcome.noSignChange ∨
        ∃ pr, brentq (δwork (mkCycle PRField.nan TIT ηc ηt Tamb pamb R γ Tmetal St bPR cPR) w)
          1 40 = BrentqOutcome.found pr false) :
    calcPR brentq (mkCycle PRField.nan TIT ηc ηt Tamb pamb R γ Tmetal St bPR cPR) w =
      PRField.nan ∧
    SimpleBraytonCycle_init brentq none TIT ηc ηt Tamb pamb R γ (some w) Tmetal St bPR cPR =
      Except.ok (mkCycle PRField.nan TIT ηc ηt Tamb pamb R γ Tmetal St bPR cPR) ∧
    ∀ brentq2 : (ℝ → ℝ) → ℝ → ℝ → BrentqOutcome,
      brentq2 (δwork (mkCycle PRField.nan TIT ηc ηt Tamb pamb R γ Tmetal St bPR cPR) w) 1 40 =
        brentq (δwork (mkCycle PRField.nan TIT ηc ηt Tamb pamb R γ Tmetal St bPR cPR) w) 1 40 →
      calcPR brentq2 (mkCycle PRField.nan TIT ηc ηt Tamb pamb R γ Tmetal St bPR cPR) w =
        calcPR brentq (mkCycle PRField.nan TIT ηc ηt Tamb pamb R γ Tmetal St bPR cPR) w := by
  have hcalc :
      calcPR brentq (mkCycle PRField.nan TIT ηc ηt Tamb pamb R γ Tmetal St bPR cPR) w =
        PRField.nan := by
    unfold calcPR
    rcases h with h | ⟨pr, h⟩
    · rw [h]
    · rw [h]
      simp
  refine ⟨hcalc, ?_, ?_⟩
  · show Except.ok _ = _
    rw [hcalc]
    rfl
  · intro brentq2 h2
    unfold calcPR
    rw [h2]

/-- Witness for C5 at a concrete input: a root finder that reports no sign
change on the spec's reference scenario with target work 5000 kJ/kg. -/
theorem calcPR_nonconvergence_nan_witness :
    calcPR (fun _ _ _ => BrentqOutcome.noSignChange)
        (mkCycle PRField.nan 1500 1 1 25 100 287.058 1.4 (some 1200) 0.07 0.98 0.95)
        5000 = PRField.nan ∧
    SimpleBraytonCycle_init (fun _ _ _ => BrentqOutcome.noSignChange) none
        1500 1 1 25 100 287.058 1.4 (some 5000) (some 1200) 0.07 0.98 0.95 =
      Except.ok (mkCycle PRField.nan 1500 1 1 25 100 287.058 1.4 (some 1200) 0.07 0.98 0.95) ∧
    ∀ brentq2 : (ℝ → ℝ) → ℝ → ℝ → BrentqOutcome,
      brentq2 (δwork (mkCycle PRField.nan 1500 1 1 25 100 287.058 1.4 (some 1200) 0.07 0.98 0.95) 5000) 1 40 =
        (fun _ _ _ => BrentqOutcome.noSignChange)
          (δwork (mkCycle PRField.nan 1500 1 1 25 100 287.058 1.4 (some 1200) 0.07 0.98 0.95) 5000) 1 40 →
      calcPR brentq2 (mkCycle PRField.nan 1500 1 1 25 100 287.058 1.4 (some 1200) 0.07 0.98 0.95) 5000 =
        calcPR (fun _ _ _ => BrentqOutcome.noSignChange)
          (mkCycle PRField.nan 1500 1 1 25 100 287.058 1.4 (some 1200) 0.07 0.98 0.95) 5000 :=
  calcPR_nonconvergence_nan (fun _ _ _ => BrentqOutcome.noSignChange)
    1500 1 1 25 100 287.058 1.4 5000 0.07 0.98 0.95 (some 1200) (Or.inl rfl)

/-- C6 (code slip): on the spec's reference construction, which supplies the
default gas-constant argument `R_J_kgK = 287.058`, the constructor stores the
hard-coded literal `287` in `ambient['R_J_kgK']` — NOT the supplied argument —
while `cp` is computed from the supplied `287.058`; consequently the entropy
accessor uses the literal `287`, not the supplied gas constant. -/
theorem ambient_R_hardcoded :
    c₀.ambient.R_J_kgK = 287 ∧
    c₀.ambient.R_J_kgK ≠ 287.058 ∧
    c₀.ambient.cp_J_kgK = 287.058 * 1.4 / (1.4 - 1) ∧
    ∀ T p : ℝ, entropy c₀ T p =
      c₀.ambient.cp_J_kgK * Real.log (T / c₀.ambient.T_K) -
        287 * Real.log (p / c₀.ambient.p_Pa) := by
  refine ⟨rfl, ?_, rfl, fun T p => rfl⟩
  show (287 : ℝ) ≠ 287.058
  norm_num

/-- C7: constructing with both `PR` and `target_mass_specific_work_kJ_kg`
absent fails with the `ValueError`; supplying either one makes construction
succeed (on this condition) with an object produced. -/
theorem init_requires_PR_or_target
    (brentq : (ℝ → ℝ) → ℝ → ℝ → BrentqOutcome)
    (TIT ηc ηt Tamb pamb R γ St bPR cPR : ℝ) (Tmetal : Option ℝ) :
    SimpleBraytonCycle_init brentq none TIT ηc ηt Tamb pamb R γ none Tmetal St bPR cPR =
      Except.error "Either PR or target_mass_specific_work must be specified." ∧
    (∀ (pr : ℝ) (target : Option ℝ), ∃ obj,
      SimpleBraytonCycle_init brentq (some pr) TIT ηc ηt Tamb pamb R γ target Tmetal St bPR cPR =
        Except.ok obj) ∧
    (∀ w : ℝ, ∃ obj,
      SimpleBraytonCycle_init brentq none TIT ηc ηt Tamb pamb R γ (some w) Tmetal St bPR cPR =
        Except.ok obj) :=
  ⟨rfl, fun _ _ => ⟨_, rfl⟩, fun _ => ⟨_, rfl⟩⟩

/-- C8: for fixed ambient state with `γ > 1`, `T_amb > 0` and compressor
polytropic efficiency in `(0, 1]`, the compressor-exit temperature is strictly
increasing in the pressure ratio on `PR ≥ 1`. -/
theorem T_compressor_exit_strictMono (c : SimpleBraytonCycle)
    (hγ : 1 < c.ambient.γ) (hη : 0 < c.ηpoly_compressor)
    (hη1 : c.ηpoly_compressor ≤ 1) (hT : 0 < c.ambient.T_K)
    (p q : ℝ) (hp : 1 ≤ p) (hpq : p < q) :
    T_compressor_exit { c with PR := p } < T_compressor_exit { c with PR := q } := by
  have hγ0 : (0 : ℝ) < c.ambient.γ := lt_trans one_pos hγ
  have he : 0 < (c.ambient.γ - 1) / c.ambient.γ / c.ηpoly_compressor :=
    div_pos (div_pos (by linarith) hγ0) hη
  have hbase :
      p ^ ((c.ambient.γ - 1) / c.ambient.γ / c.ηpoly_compressor) <
        q ^ ((c.ambient.γ - 1) / c.ambient.γ / c.ηpoly_compressor) :=
    Real.rpow_lt_rpow (le_trans zero_le_one hp) hpq he
  show c.ambient.T_K * p ^ ((c.ambient.γ - 1) / c.ambient.γ / c.ηpoly_compressor) <
    c.ambient.T_K * q ^ ((c.ambient.γ - 1) / c.ambient.γ / c.ηpoly_compressor)
  exact mul_lt_mul_of_pos_left hbase hT

/-- Witness for C8 on the spec's reference design point: its hypotheses hold
there and the compressor-exit temperature at PR = 2 exceeds that at PR = 1. -/
theorem T_compressor_exit_strictMono_witness :
    T_compressor_exit { c₀ with PR := 1 } < T_compressor_exit { c₀ with PR := 2 } := by
  have hγ : 1 < c₀.ambient.γ := by show (1 : ℝ) < 1.4; norm_num
  have hη : 0 < c₀.ηpoly_compressor := by show (0 : ℝ) < 1; norm_num
  have hη1 : c₀.ηpoly_compressor ≤ 1 := by show (1 : ℝ) ≤ 1; norm_num
  have hT : 0 < c₀.ambient.T_K := by show (0 : ℝ) < 25 + 273.15; norm_num
  exact T_compressor_exit_strictMono c₀ hγ hη hη1 hT 1 2 le_rfl one_lt_two

/-- C9: the compressible-flow relations compute
`θ(M,γ) = 1 + (γ−1)/2·M²` and `δ(M,γ) = θ(M,γ)^(γ/(γ−1))`
(with `γ1 γ = γ/(γ−1)`), as total stateless functions of the Mach number and
`γ`, with `γ` defaulting to 1.4 when not given. -/
theorem compressible_flow_relations (Mach γ : ℝ) :
    γ1 γ = γ / (γ - 1) ∧
    θ Mach γ = 1 + (γ - 1) / 2 * Mach ^ (2 : ℕ) ∧
    δ Mach γ = θ Mach γ ^ (γ / (γ - 1)) ∧
    θ Mach = θ Mach 1.4 ∧
    δ Mach = δ Mach 1.4 :=
  ⟨rfl, rfl, rfl, rfl, rfl⟩

/-- C10: the five-station pressure array is
`p_amb·[1, PR, PR·burnerPR, turbinePR, 1]`: the final station's pressure
always equals the ambient pressure, and changing the cooling pressure-loss
factor leaves the first three stations (through combustor exit, which uses
`burnerPR` alone) unchanged. -/
theorem cyclePressures_stations (c : SimpleBraytonCycle) :
    cyclePressures c =
      [c.ambient.p_Pa, c.ambient.p_Pa * c.PR,
        c.ambient.p_Pa * (c.PR * c.burnerPR),
        c.ambient.p_Pa * turbinePR c, c.ambient.p_Pa] ∧
    (cyclePressures c).getLast? = some c.ambient.p_Pa ∧
    ∀ x : ℝ, (cyclePressures { c with coolingPR := x }).take 3 =
      (cyclePressures c).take 3 := by
  refine ⟨?_, ?_, fun x => rfl⟩
  · simp [cyclePressures]
  · simp [cyclePressures, List.getLast?]
